import Mathlib

/-!
Shallow embedding of `src/app.py`, a small Flask code-review service:
a pure analyzer `analyze_code_simple` and the route handlers
`review_code` (POST /api/review), `get_history` (GET /api/history) and
`get_stats` (GET /api/stats), with the in-memory `reviews` list threaded
explicitly as state.
-/

namespace CodeReview

/-- Does `pat` match at the head of `l`? Helper for Python substring containment. -/
def matchesAt : List Char → List Char → Bool
  | [], _ => true
  | _ :: _, [] => false
  | p :: ps, c :: cs => p == c && matchesAt ps cs

/-- Is `pat` a contiguous run inside `l`? Helper for Python substring containment. -/
def containsSeq (pat : List Char) : List Char → Bool
  | [] => matchesAt pat []
  | c :: cs => matchesAt pat (c :: cs) || containsSeq pat cs

/-- Python `pat in s`: substring containment. -/
def strContains (s pat : String) : Bool :=
  containsSeq pat.toList s.toList

/-- Python `s.lower()`: character-wise lowering. -/
def pyToLower (s : String) : String :=
  String.mk (s.toList.map Char.toLower)

/-- Python `str.split('\n')` on character lists: cut at every newline. -/
def splitCharLines : List Char → List (List Char)
  | [] => [[]]
  | c :: cs =>
    match splitCharLines cs with
    | [] => [[]]
    | line :: rest => if c = '\n' then [] :: line :: rest else (c :: line) :: rest

/-- Python `str.isspace()` per character: the code points CPython treats as
whitespace (ASCII whitespace including vertical tab and form feed, the
file/group/record/unit separators, NEL, NBSP, and the Unicode space and
line/paragraph separators). -/
def pyIsSpace (c : Char) : Bool :=
  let n := c.toNat
  (9 ≤ n && n ≤ 13) || (28 ≤ n && n ≤ 31) || n == 32 || n == 133 || n == 160 ||
    n == 0x1680 || (0x2000 ≤ n && n ≤ 0x200A) || n == 0x2028 || n == 0x2029 ||
    n == 0x202F || n == 0x205F || n == 0x3000

/-- Python `s.strip()`: drop Python whitespace from both ends. -/
def pyStrip (s : String) : String :=
  String.mk (((s.toList.dropWhile pyIsSpace).reverse.dropWhile pyIsSpace).reverse)

/-- Python `sep.join(xs)`. -/
def joinWith (sep : String) : List String → String
  | [] => ""
  | x :: xs =>
    match xs with
    | [] => x
    | _ :: _ => x ++ sep ++ joinWith sep xs

/-- The single-quote character, written by code point. -/
def singleQuote : Char := Char.ofNat 39

/-- The Python triple-single-quote delimiter looked for by the docstring check. -/
def tripleSingle : String := String.mk [singleQuote, singleQuote, singleQuote]

/-- An issue reported by the analyzer (`severity`, optional 1-based `line`, `message`). -/
structure Issue where
  severity : String
  line : Option Nat
  message : String
deriving Repr, DecidableEq

/-- A suggestion reported by the analyzer (`category`, `message`). -/
structure Suggestion where
  category : String
  message : String
deriving Repr, DecidableEq

/-- The value returned by `analyze_code_simple` (src/app.py lines 116-121). -/
structure AnalysisResult where
  issues : List Issue
  suggestions : List Suggestion
  score : Int
  summary : String
deriving Repr, DecidableEq

/-- Python `code.split('\n')` (src/app.py line 23). -/
def splitLines (code : String) : List String :=
  (splitCharLines code.toList).map String.mk

/-- Check 1 (src/app.py lines 26-31): large-file warning. -/
def sizeIssues (lines : List String) : List Issue :=
  if 200 < lines.length then
    [⟨"warning", none, "File is quite large. Consider breaking it into smaller modules."⟩]
  else []

/-- Check 1 penalty (src/app.py line 32). -/
def sizePenalty (lines : List String) : Int :=
  if 200 < lines.length then 5 else 0

/-- Check 2 (src/app.py line 35): 1-based numbers of lines longer than 100 characters. -/
def longLineNumbers (lines : List String) : List Nat :=
  (lines.enum.filter (fun p => 100 < p.2.length)).map (fun p => p.1 + 1)

/-- Check 2 message (src/app.py line 40): lists at most the first 3 offending line numbers. -/
def longLineMessage (lines : List String) : String :=
  "Lines " ++ joinWith ", " (((longLineNumbers lines).take 3).map toString) ++
    " exceed 100 characters. Consider breaking them up."

/-- Check 2 (src/app.py lines 36-41): one info issue when any line exceeds 100 characters. -/
def longIssues (lines : List String) : List Issue :=
  match longLineNumbers lines with
  | [] => []
  | k :: _ => [⟨"info", some k, longLineMessage lines⟩]

/-- Check 2 penalty (src/app.py line 42). -/
def longPenalty (lines : List String) : Int :=
  if (longLineNumbers lines).isEmpty then 0 else 3

/-- Check 3 (src/app.py line 47): 1-based numbers of lines containing `print(`. -/
def printLineNumbers (lines : List String) : List Nat :=
  (lines.enum.filter (fun p => strContains p.2 "print(")).map (fun p => p.1 + 1)

/-- Check 3 (src/app.py lines 45-53): print-statement info issue for Python. -/
def pythonIssues (language : String) (lines : List String) : List Issue :=
  if pyToLower language == "python" then
    match printLineNumbers lines with
    | [] => []
    | k :: _ =>
      [⟨"info", some k, "Consider using logging instead of print statements for production code."⟩]
  else []

/-- Check 3 (src/app.py lines 56-69): try-except and docstring suggestions for Python. -/
def pythonSuggestions (code language : String) : List Suggestion :=
  if pyToLower language == "python" then
    (if strContains code "try:" then []
     else [⟨"Error Handling", "Consider adding try-except blocks for robust error handling."⟩]) ++
    (if strContains code "\"\"\"" || strContains code tripleSingle then []
     else [⟨"Documentation", "Add docstrings to functions and classes for better code documentation."⟩])
  else []

/-- Check 3 penalties (src/app.py lines 61 and 69). -/
def pythonPenalty (code language : String) : Int :=
  if pyToLower language == "python" then
    (if strContains code "try:" then 0 else 5) +
    (if strContains code "\"\"\"" || strContains code tripleSingle then 0 else 5)
  else 0

/-- Check 4 (src/app.py lines 72-88): `var` warning and `console.log` info for JS/Java. -/
def jsIssues (code language : String) : List Issue :=
  if pyToLower language == "javascript" || pyToLower language == "java" then
    (if pyToLower language == "javascript" && strContains code "var " then
      [⟨"warning", none, "Avoid using \"var\". Use \"let\" or \"const\" instead for better scoping."⟩]
     else []) ++
    (if strContains code "console.log" then
      [⟨"info", none, "Remove console.log statements before production deployment."⟩]
     else [])
  else []

/-- Check 4 penalty (src/app.py line 80). -/
def jsPenalty (code language : String) : Int :=
  if pyToLower language == "javascript" || pyToLower language == "java" then
    (if pyToLower language == "javascript" && strContains code "var " then 5 else 0)
  else 0

/-- Check 5 condition (src/app.py line 91): `password` in lowercase code and `=` in code. -/
def securityTriggered (code : String) : Bool :=
  strContains (pyToLower code) "password" && strContains code "="

/-- Check 5 (src/app.py lines 91-96): critical hardcoded-password issue. -/
def securityIssues (code : String) : List Issue :=
  if securityTriggered code then
    [⟨"critical", none, "Potential hardcoded password detected. Use environment variables instead."⟩]
  else []

/-- Check 5 penalty (src/app.py line 97). -/
def securityPenalty (code : String) : Int :=
  if securityTriggered code then 20 else 0

/-- Sum of all score deductions of `analyze_code_simple` (src/app.py lines 32-97). -/
def totalPenalty (code language : String) : Int :=
  sizePenalty (splitLines code) + longPenalty (splitLines code) +
    pythonPenalty code language + jsPenalty code language + securityPenalty code

/-- The issues list of `analyze_code_simple`, in source append order (checks 1-5). -/
def allIssues (code language : String) : List Issue :=
  sizeIssues (splitLines code) ++ longIssues (splitLines code) ++
    pythonIssues language (splitLines code) ++ jsIssues code language ++ securityIssues code

/-- The suggestions list of `analyze_code_simple` (src/app.py lines 56-69 and 99-114). -/
def allSuggestions (code language : String) : List Suggestion :=
  pythonSuggestions code language ++
    (if (allIssues code language).isEmpty then
      [⟨"Code Quality", "Code looks clean! Consider adding unit tests if not already present."⟩]
     else []) ++
    [⟨"Performance", "Profile your code with production data to identify bottlenecks."⟩,
     ⟨"Best Practices",
      "Ensure consistent code formatting with tools like Black (Python) or Prettier (JS)."⟩]

/-- `analyze_code_simple(code, language)` (src/app.py lines 13-121): score starts at 100,
each triggered check subtracts its fixed penalty, and the result is floored at 0. -/
def analyze_code_simple (code language : String) : AnalysisResult :=
  { issues := allIssues code language
    suggestions := allSuggestions code language
    score := max (100 - totalPenalty code language) 0
    summary := "Found " ++ toString (allIssues code language).length ++
      " issues. Code quality score: " ++ toString (max (100 - totalPenalty code language) 0) ++
      "/100" }

/-- A JSON value, as far as the handlers inspect one. -/
inductive Jval where
  | jstr : String → Jval
  | jnum : Int → Jval
  | jbool : Bool → Jval
  | jnull : Jval
deriving Repr, DecidableEq

/-- A JSON object body: association list with Python-dict lookup. -/
abbrev Jobj := List (String × Jval)

/-- Python `data.get(k)` / `k in data` on a dict. -/
def lookupKey (data : Jobj) (k : String) : Option Jval :=
  match data with
  | [] => none
  | (k0, v) :: rest => if k0 == k then some v else lookupKey rest k

/-- An entry of the in-memory `reviews` list (src/app.py lines 156-163). -/
structure ReviewRecord where
  id : Nat
  timestamp : String
  language : String
  code_length : Nat
  score : Int
  issues_count : Nat
deriving Repr, DecidableEq

/-- An HTTP response of POST /api/review: the 200 success JSON, or an error
status and message (400 validation failures, 500 from the catch-all handler). -/
inductive Response where
  | ok (analysis : AnalysisResult) (timestamp : String)
  | err (status : Nat) (message : String)
deriving Repr, DecidableEq

/-- `review_code` (src/app.py lines 134-173). The request body is `none` when
`request.get_json()` yields no JSON object. Python dynamic-type faults are the
`err 500` branches caught by the catch-all `except` (src/app.py lines 172-173):
`code.strip()` on a non-string raises, and `language.lower()` inside the
analyzer raises on a non-string language, both before any append. Returns the
response and the new `reviews` list. -/
def review_code (log : List ReviewRecord) (body : Option Jobj) (now : String) :
    Response × List ReviewRecord :=
  match body with
  | none => (.err 400 "Code is required", log)
  | some data =>
    if data.isEmpty then (.err 400 "Code is required", log)
    else
      match lookupKey data "code" with
      | none => (.err 400 "Code is required", log)
      | some codeVal =>
        let langVal := (lookupKey data "language").getD (.jstr "python")
        match codeVal with
        | .jstr code =>
          if (pyStrip code).length == 0 then (.err 400 "Code cannot be empty", log)
          else if 10000 < code.length then
            (.err 400 "Code is too large (max 10,000 characters)", log)
          else
            match langVal with
            | .jstr language =>
              let analysis := analyze_code_simple code language
              let entry : ReviewRecord :=
                { id := log.length + 1, timestamp := now, language := language,
                  code_length := code.length, score := analysis.score,
                  issues_count := analysis.issues.length }
              (.ok analysis now, log ++ [entry])
            | _ => (.err 500 "AttributeError: object has no attribute lower", log)
        | _ => (.err 500 "AttributeError: object has no attribute strip", log)

/-- `get_history` (src/app.py lines 175-184): `reviews[-10:][::-1]`. -/
def get_history (log : List ReviewRecord) : List ReviewRecord :=
  (log.drop (log.length - 10)).reverse

/-- Run a sequence of POST /api/review requests (body, timestamp) against the log. -/
def runRequests (log : List ReviewRecord) : List (Option Jobj × String) → List ReviewRecord
  | [] => log
  | (body, now) :: rest => runRequests (review_code log body now).2 rest

lemma containsSeq_append_of_right (pat xs ys : List Char)
    (h : containsSeq pat ys = true) : containsSeq pat (xs ++ ys) = true := by
  induction xs with
  | nil => simpa using h
  | cons c cs ih => simp [containsSeq, ih]

lemma strContains_append_right (a b pat : String)
    (h : strContains b pat = true) : strContains (a ++ b) pat = true := by
  unfold strContains at h ⊢
  have hl : (a ++ b).toList = a.toList ++ b.toList := by
    simp [String.toList, String.data_append]
  rw [hl]
  exact containsSeq_append_of_right _ _ _ h

lemma sizePenalty_bounds (lines : List String) :
    0 ≤ sizePenalty lines ∧ sizePenalty lines ≤ 5 := by
  unfold sizePenalty; split <;> omega

lemma longPenalty_bounds (lines : List String) :
    0 ≤ longPenalty lines ∧ longPenalty lines ≤ 3 := by
  unfold longPenalty; split <;> omega

lemma pythonPenalty_bounds (code language : String) :
    0 ≤ pythonPenalty code language ∧ pythonPenalty code language ≤ 10 := by
  unfold pythonPenalty
  split
  · constructor <;> (split <;> split <;> omega)
  · omega

lemma jsPenalty_bounds (code language : String) :
    0 ≤ jsPenalty code language ∧ jsPenalty code language ≤ 5 := by
  unfold jsPenalty
  split
  · split <;> omega
  · omega

lemma securityPenalty_bounds (code : String) :
    0 ≤ securityPenalty code ∧ securityPenalty code ≤ 20 := by
  unfold securityPenalty; split <;> omega

lemma jsPenalty_eq_zero_of_python (code language : String)
    (h : pyToLower language = "python") : jsPenalty code language = 0 := by
  unfold jsPenalty; rw [h]; rfl

lemma pythonPenalty_eq_zero_of_ne (code language : String)
    (h : ¬ pyToLower language = "python") : pythonPenalty code language = 0 := by
  have h' : ¬ ((pyToLower language == "python") = true) := by simpa using h
  unfold pythonPenalty
  rw [if_neg h']

/-- The Python branch and the JavaScript/Java branch are mutually exclusive,
so their combined deduction never exceeds 10. -/
lemma python_js_penalty_le (code language : String) :
    pythonPenalty code language + jsPenalty code language ≤ 10 := by
  by_cases h : pyToLower language = "python"
  · rw [jsPenalty_eq_zero_of_python code language h]
    have := pythonPenalty_bounds code language
    omega
  · rw [pythonPenalty_eq_zero_of_ne code language h]
    have := jsPenalty_bounds code language
    omega

lemma totalPenalty_bounds (code language : String) :
    0 ≤ totalPenalty code language ∧ totalPenalty code language ≤ 38 := by
  unfold totalPenalty
  have h1 := sizePenalty_bounds (splitLines code)
  have h2 := longPenalty_bounds (splitLines code)
  have h3 := pythonPenalty_bounds code language
  have h4 := jsPenalty_bounds code language
  have h5 := securityPenalty_bounds code
  have h6 := python_js_penalty_le code language
  omega

lemma analyze_score_eq (code language : String) :
    (analyze_code_simple code language).score = 100 - totalPenalty code language := by
  have h := totalPenalty_bounds code language
  show max (100 - totalPenalty code language) 0 = 100 - totalPenalty code language
  exact max_eq_left (by omega)

lemma lookupKey_isEmpty_false {data : Jobj} {k : String} {v : Jval}
    (h : lookupKey data k = some v) : data.isEmpty = false := by
  cases data with
  | nil => simp [lookupKey] at h
  | cons p rest => rfl

/-- Case analysis of one POST /api/review call: every failing branch leaves the
log unchanged and returns an error, and the single succeeding branch appends
exactly the record built from the analysis. -/
lemma review_code_cases (log : List ReviewRecord) (body : Option Jobj) (now : String) :
    ((review_code log body now).2 = log ∧
      ∃ s m, (review_code log body now).1 = Response.err s m) ∨
    (∃ code language,
      (review_code log body now).1 = Response.ok (analyze_code_simple code language) now ∧
      (review_code log body now).2 = log ++
        [{ id := log.length + 1, timestamp := now, language := language,
           code_length := code.length, score := (analyze_code_simple code language).score,
           issues_count := (analyze_code_simple code language).issues.length }]) := by
  unfold review_code
  rcases body with _ | data
  · exact Or.inl ⟨rfl, 400, _, rfl⟩
  · dsimp only
    split
    · exact Or.inl ⟨rfl, 400, _, rfl⟩
    · split
      · exact Or.inl ⟨rfl, 400, _, rfl⟩
      · rename_i codeVal heq
        cases codeVal with
        | jstr code =>
          dsimp only
          split
          · exact Or.inl ⟨rfl, 400, _, rfl⟩
          · split
            · exact Or.inl ⟨rfl, 400, _, rfl⟩
            · split
              · rename_i language hlang
                exact Or.inr ⟨code, language, rfl, rfl⟩
              · exact Or.inl ⟨rfl, 500, _, rfl⟩
        | jnum n => exact Or.inl ⟨rfl, 500, _, rfl⟩
        | jbool b => exact Or.inl ⟨rfl, 500, _, rfl⟩
        | jnull => exact Or.inl ⟨rfl, 500, _, rfl⟩

/-- C9: the deductions of `analyze_code_simple` sum to at most 38
(5 + 3 + 5 + 5 + 20, the Python and JS branches being mutually exclusive), so
the returned score equals 100 minus the penalties, is at least 62, and the
final `max(score, 0)` clamp never changes the value. -/
theorem claim9 (code language : String) :
    0 ≤ totalPenalty code language ∧ totalPenalty code language ≤ 38 ∧
    (analyze_code_simple code language).score = 100 - totalPenalty code language ∧
    62 ≤ (analyze_code_simple code language).score ∧
    max (100 - totalPenalty code language) 0 = 100 - totalPenalty code language := by
  have hb := totalPenalty_bounds code language
  have hs := analyze_score_eq code language
  refine ⟨hb.1, hb.2, hs, ?_, ?_⟩
  · rw [hs]; omega
  · exact max_eq_left (by omega)

/-- C1: the analyzer's score always lies in [0, 100], and every record the
review endpoint stores (beyond those already in the log) has its score in
[0, 100]. -/
theorem claim1 :
    (∀ code language : String, 0 ≤ (analyze_code_simple code language).score ∧
        (analyze_code_simple code language).score ≤ 100) ∧
    (∀ (log : List ReviewRecord) (body : Option Jobj) (now : String) (r : ReviewRecord),
        r ∈ (review_code log body now).2 →
        r ∈ log ∨ (0 ≤ r.score ∧ r.score ≤ 100)) := by
  constructor
  · intro code language
    have hb := totalPenalty_bounds code language
    have hs := analyze_score_eq code language
    rw [hs]
    omega
  · intro log body now r hr
    rcases review_code_cases log body now with ⟨h2, _⟩ | ⟨code, language, _, h2⟩
    · rw [h2] at hr
      exact Or.inl hr
    · rw [h2] at hr
      rcases List.mem_append.mp hr with h | h
      · exact Or.inl h
      · right
        rw [List.mem_singleton.mp h]
        have hb := totalPenalty_bounds code language
        have hs := analyze_score_eq code language
        show 0 ≤ (analyze_code_simple code language).score ∧
          (analyze_code_simple code language).score ≤ 100
        rw [hs]
        omega

theorem claim1_witness :
    (⟨1, "t", "python", 5, 90, 0⟩ : ReviewRecord) ∈
      (review_code [] (some [("code", Jval.jstr "x = 1")]) "t").2 ∧
    ((⟨1, "t", "python", 5, 90, 0⟩ : ReviewRecord) ∈ ([] : List ReviewRecord) ∨
      (0 ≤ (90 : Int) ∧ (90 : Int) ≤ 100)) :=
  ⟨by decide,
   claim1.2 [] (some [("code", Jval.jstr "x = 1")]) "t" ⟨1, "t", "python", 5, 90, 0⟩ (by decide)⟩

/-- C2: whenever the lowercase code contains "password" and the code contains
"=", the result contains the critical hardcoded-password issue (line = null)
for every language, and the score is exactly 20 points below the score the
same input would receive from the remaining checks alone. -/
theorem claim2 (code language : String)
    (h1 : strContains (pyToLower code) "password" = true)
    (h2 : strContains code "=" = true) :
    (⟨"critical", none,
      "Potential hardcoded password detected. Use environment variables instead."⟩ : Issue) ∈
      (analyze_code_simple code language).issues ∧
    (analyze_code_simple code language).score + 20 =
      max (100 - (sizePenalty (splitLines code) + longPenalty (splitLines code) +
        pythonPenalty code language + jsPenalty code language)) 0 := by
  have hsec : securityTriggered code = true := by
    unfold securityTriggered
    rw [h1, h2]
    rfl
  constructor
  · show _ ∈ allIssues code language
    unfold allIssues securityIssues
    rw [hsec]
    simp
  · have h1b := sizePenalty_bounds (splitLines code)
    have h2b := longPenalty_bounds (splitLines code)
    have h3b := pythonPenalty_bounds code language
    have h4b := jsPenalty_bounds code language
    have h6b := python_js_penalty_le code language
    have hs := analyze_score_eq code language
    rw [hs]
    unfold totalPenalty securityPenalty
    rw [hsec]
    rw [max_eq_left (by omega)]
    simp only [if_true]
    omega

theorem claim2_witness :
    (⟨"critical", none,
      "Potential hardcoded password detected. Use environment variables instead."⟩ : Issue) ∈
      (analyze_code_simple "password = 1" "java").issues ∧
    (analyze_code_simple "password = 1" "java").score + 20 =
      max (100 - (sizePenalty (splitLines "password = 1") + longPenalty (splitLines "password = 1") +
        pythonPenalty "password = 1" "java" + jsPenalty "password = 1" "java")) 0 :=
  claim2 "password = 1" "java" (by decide) (by decide)

/-- C6: each POST /api/review call is atomic: it either fully succeeds,
appending exactly one record and returning the analysis, or fails with an
error response and leaves the review log unchanged. -/
theorem claim6 (log : List ReviewRecord) (body : Option Jobj) (now : String) :
    (∃ code language,
      (review_code log body now).1 = Response.ok (analyze_code_simple code language) now ∧
      (review_code log body now).2 = log ++
        [{ id := log.length + 1, timestamp := now, language := language,
           code_length := code.length, score := (analyze_code_simple code language).score,
           issues_count := (analyze_code_simple code language).issues.length }]) ∨
    ((∃ s m, (review_code log body now).1 = Response.err s m) ∧
      (review_code log body now).2 = log) := by
  rcases review_code_cases log body now with ⟨ha, hb⟩ | h
  · exact Or.inr ⟨hb, ha⟩
  · exact Or.inl h

/-- C3: POST /api/review validation proceeds in order: no JSON object body or
missing `code` key → 400 "Code is required"; then code empty after trimming →
400 "Code cannot be empty"; then code longer than 10,000 characters →
400 (too large); and only a request passing all three checks reaches the
analyzer (its result is returned and recorded). -/
theorem claim3 (log : List ReviewRecord) (now : String) :
    (∀ body : Option Jobj,
        (body = none ∨ ∃ data, body = some data ∧ lookupKey data "code" = none) →
        review_code log body now = (Response.err 400 "Code is required", log)) ∧
    (∀ (data : Jobj) (code : String),
        lookupKey data "code" = some (Jval.jstr code) →
        (pyStrip code).length = 0 →
        review_code log (some data) now = (Response.err 400 "Code cannot be empty", log)) ∧
    (∀ (data : Jobj) (code : String),
        lookupKey data "code" = some (Jval.jstr code) →
        (pyStrip code).length ≠ 0 → 10000 < code.length →
        review_code log (some data) now =
          (Response.err 400 "Code is too large (max 10,000 characters)", log)) ∧
    (∀ (data : Jobj) (code language : String),
        lookupKey data "code" = some (Jval.jstr code) →
        lookupKey data "language" = some (Jval.jstr language) →
        (pyStrip code).length ≠ 0 → code.length ≤ 10000 →
        review_code log (some data) now =
          (Response.ok (analyze_code_simple code language) now,
           log ++ [{ id := log.length + 1, timestamp := now, language := language,
                     code_length := code.length,
                     score := (analyze_code_simple code language).score,
                     issues_count := (analyze_code_simple code language).issues.length }])) := by
  refine ⟨?_, ?_, ?_, ?_⟩
  · intro body h
    rcases h with rfl | ⟨data, rfl, hnone⟩
    · rfl
    · unfold review_code
      dsimp only
      split
      · rfl
      · rw [hnone]
  · intro data code hcode hempty
    have hne := lookupKey_isEmpty_false hcode
    simp [review_code, hne, hcode, hempty]
  · intro data code hcode hstr hlen
    have hne := lookupKey_isEmpty_false hcode
    have h0 : ((pyStrip code).length == 0) = false := by
      simpa using hstr
    simp [review_code, hne, hcode, h0, hlen]
  · intro data code language hcode hlang hstr hlen
    have hne := lookupKey_isEmpty_false hcode
    have h0 : ((pyStrip code).length == 0) = false := by
      simpa using hstr
    have hgt : ¬ (10000 < code.length) := by omega
    simp [review_code, hne, hcode, h0, hgt, hlang]

theorem claim3_witness :
    review_code [] none "t" = (Response.err 400 "Code is required", []) ∧
    review_code [] (some [("code", Jval.jstr ""), ("language", Jval.jstr "python")]) "t" =
      (Response.err 400 "Code cannot be empty", []) ∧
    review_code [] (some [("code", Jval.jstr "print(42)"), ("language", Jval.jstr "python")])
        "t" =
      (Response.ok (analyze_code_simple "print(42)" "python") "t",
       [{ id := 1, timestamp := "t", language := "python", code_length := 9,
          score := (analyze_code_simple "print(42)" "python").score,
          issues_count := (analyze_code_simple "print(42)" "python").issues.length }]) :=
  ⟨(claim3 [] "t").1 none (Or.inl rfl),
   (claim3 [] "t").2.1 [("code", Jval.jstr ""), ("language", Jval.jstr "python")] ""
     (by decide) (by decide),
   (claim3 [] "t").2.2.2 [("code", Jval.jstr "print(42)"), ("language", Jval.jstr "python")]
     "print(42)" "python" (by decide) (by decide) (by decide) (by decide)⟩

/-- C4: GET /api/history returns at most 10 records, namely the last appended
ones in most-recent-first order (it equals `take 10` of the reversed log); an
empty log gives an empty list; and after 12 successful submissions the 12
stored ids are 1..12 and history returns exactly ids 12, 11, ..., 3. -/
theorem claim4 :
    (∀ log : List ReviewRecord, (get_history log).length ≤ 10) ∧
    (∀ log : List ReviewRecord, get_history log = log.reverse.take 10) ∧
    get_history ([] : List ReviewRecord) = [] ∧
    (runRequests [] (List.replicate 12 (some [("code", Jval.jstr "x")], "t"))).map
        (fun r => r.id) = [1, 2, 3, 4, 5, 6, 7, 8, 9, 10, 11, 12] ∧
    (get_history (runRequests [] (List.replicate 12 (some [("code", Jval.jstr "x")], "t")))).map
        (fun r => r.id) = [12, 11, 10, 9, 8, 7, 6, 5, 4, 3] := by
  have hrev : ∀ log : List ReviewRecord, get_history log = log.reverse.take 10 := by
    intro log
    show (log.drop (log.length - 10)).reverse = log.reverse.take 10
    calc (log.drop (log.length - 10)).reverse
        = (log.rtake 10).reverse := rfl
      _ = ((log.reverse.take 10).reverse).reverse := by
          rw [List.rtake_eq_reverse_take_reverse]
      _ = log.reverse.take 10 := List.reverse_reverse _
  refine ⟨?_, hrev, rfl, ?_, ?_⟩
  · intro log
    rw [hrev]
    exact List.length_take_le 10 log.reverse
  · rfl
  · rfl

lemma sizeIssues_filter_long (lines : List String) :
    (sizeIssues lines).filter (fun i => strContains i.message "exceed 100 characters") = [] := by
  unfold sizeIssues
  split <;> decide

lemma pythonIssues_filter_long (language : String) (lines : List String) :
    (pythonIssues language lines).filter
      (fun i => strContains i.message "exceed 100 characters") = [] := by
  have hm : strContains "Consider using logging instead of print statements for production code."
      "exceed 100 characters" = false := by decide
  unfold pythonIssues
  split
  · split
    · rfl
    · simp [List.filter, hm]
  · rfl

lemma jsIssues_filter_long (code language : String) :
    (jsIssues code language).filter
      (fun i => strContains i.message "exceed 100 characters") = [] := by
  unfold jsIssues
  split
  · rw [List.filter_append]
    split <;> split <;> decide
  · rfl

lemma securityIssues_filter_long (code : String) :
    (securityIssues code).filter
      (fun i => strContains i.message "exceed 100 characters") = [] := by
  unfold securityIssues
  split <;> decide

/-- C7: if some line exceeds 100 characters, the analyzer appends exactly one
info issue about long lines, whose message lists at most the first 3 offending
1-based line numbers and whose line field is the first offending line number,
and the score is exactly 3 points below what the remaining checks alone would
give; if no line exceeds 100 characters, no such issue and no such deduction
occur. -/
theorem claim7 (code language : String) :
    (longLineNumbers (splitLines code) = [] →
      (analyze_code_simple code language).issues.filter
          (fun i => strContains i.message "exceed 100 characters") = [] ∧
      (analyze_code_simple code language).score =
        max (100 - (sizePenalty (splitLines code) + pythonPenalty code language +
          jsPenalty code language + securityPenalty code)) 0) ∧
    (∀ (k : Nat) (t : List Nat), longLineNumbers (splitLines code) = k :: t →
      (analyze_code_simple code language).issues.filter
          (fun i => strContains i.message "exceed 100 characters") =
        [⟨"info", some k,
          "Lines " ++
              joinWith ", " (((longLineNumbers (splitLines code)).take 3).map toString) ++
            " exceed 100 characters. Consider breaking them up."⟩] ∧
      (analyze_code_simple code language).score + 3 =
        max (100 - (sizePenalty (splitLines code) + pythonPenalty code language +
          jsPenalty code language + securityPenalty code)) 0) := by
  constructor
  · intro h0
    constructor
    · show (allIssues code language).filter _ = []
      simp [allIssues, List.filter_append, sizeIssues_filter_long, pythonIssues_filter_long,
        jsIssues_filter_long, securityIssues_filter_long, longIssues, h0]
    · have hp : longPenalty (splitLines code) = 0 := by
        unfold longPenalty
        rw [h0]
        rfl
      show max (100 - totalPenalty code language) 0 = _
      unfold totalPenalty
      rw [hp, add_zero]
  · intro k t hkt
    constructor
    · show (allIssues code language).filter _ = _
      simp [allIssues, List.filter_append, sizeIssues_filter_long, pythonIssues_filter_long,
        jsIssues_filter_long, securityIssues_filter_long, longIssues, hkt, List.filter,
        longLineMessage]
      rw [strContains_append_right _ _ _
        (by decide :
          strContains " exceed 100 characters. Consider breaking them up."
            "exceed 100 characters" = true)]
    · have hp : longPenalty (splitLines code) = 3 := by
        unfold longPenalty
        rw [hkt]
        rfl
      have h1 := sizePenalty_bounds (splitLines code)
      have h3 := pythonPenalty_bounds code language
      have h4 := jsPenalty_bounds code language
      have h5 := securityPenalty_bounds code
      have h6 := python_js_penalty_le code language
      show max (100 - totalPenalty code language) 0 + 3 = _
      unfold totalPenalty
      rw [hp]
      rw [max_eq_left (by omega : (0 : Int) ≤ 100 - (sizePenalty (splitLines code) + 3 +
        pythonPenalty code language + jsPenalty code language + securityPenalty code))]
      rw [max_eq_left (by omega : (0 : Int) ≤ 100 - (sizePenalty (splitLines code) +
        pythonPenalty code language + jsPenalty code language + securityPenalty code))]
      omega

theorem claim7_witness :
    (analyze_code_simple (String.mk (List.replicate 101 'a')) "go").issues.filter
        (fun i => strContains i.message "exceed 100 characters") =
      [⟨"info", some 1,
        "Lines " ++
            joinWith ", "
              (((longLineNumbers (splitLines (String.mk (List.replicate 101 'a')))).take 3).map
                toString) ++
          " exceed 100 characters. Consider breaking them up."⟩] ∧
    (analyze_code_simple (String.mk (List.replicate 101 'a')) "go").score + 3 =
      max (100 - (sizePenalty (splitLines (String.mk (List.replicate 101 'a'))) +
        pythonPenalty (String.mk (List.replicate 101 'a')) "go" +
        jsPenalty (String.mk (List.replicate 101 'a')) "go" +
        securityPenalty (String.mk (List.replicate 101 'a')))) 0 :=
  (claim7 (String.mk (List.replicate 101 'a')) "go").2 1 [] (by decide)

lemma runRequests_ids_aux (reqs : List (Option Jobj × String)) :
    ∀ log : List ReviewRecord,
      log.map (fun r => r.id) = List.range' 1 log.length →
      (runRequests log reqs).map (fun r => r.id) =
        List.range' 1 (runRequests log reqs).length := by
  induction reqs with
  | nil =>
    intro log h
    exact h
  | cons p rest ih =>
    intro log h
    rcases p with ⟨body, now⟩
    show (runRequests (review_code log body now).2 rest).map _ = _
    apply ih
    rcases review_code_cases log body now with ⟨h2, _⟩ | ⟨c, l, _, h2⟩
    · rw [h2]
      exact h
    · rw [h2]
      simp only [List.map_append, List.map_cons, List.map_nil, List.length_append,
        List.length_cons, List.length_nil, h]
      have hc := @List.range'_concat 1 1 log.length
      rw [show 1 + 1 * log.length = log.length + 1 by omega] at hc
      rw [show log.length + (0 + 1) = log.length + 1 by omega, ← hc]

/-- C8: the ids in the review log are 1, 2, ..., n in order after any sequence
of requests starting from the empty log: each successful review stores id =
new log length, so ids start at 1 and are strictly increasing. -/
theorem claim8 (reqs : List (Option Jobj × String)) :
    (runRequests [] reqs).map (fun r => r.id) =
      List.range' 1 (runRequests [] reqs).length :=
  runRequests_ids_aux reqs [] rfl

/-- C10: a JSON body whose `code` value is not a string makes `code.strip()`
raise, so the catch-all handler answers HTTP 500 (not 400) and no record is
appended. -/
theorem claim10 (log : List ReviewRecord) (data : Jobj) (now : String) (v : Jval)
    (hv : lookupKey data "code" = some v) (hs : ∀ s, v ≠ Jval.jstr s) :
    (∃ m, (review_code log (some data) now).1 = Response.err 500 m) ∧
    (review_code log (some data) now).2 = log := by
  have hne := lookupKey_isEmpty_false hv
  cases v with
  | jstr s => exact absurd rfl (hs s)
  | jnum n =>
    constructor
    · refine ⟨"AttributeError: object has no attribute strip", ?_⟩
      simp [review_code, hne, hv]
    · simp [review_code, hne, hv]
  | jbool b =>
    constructor
    · refine ⟨"AttributeError: object has no attribute strip", ?_⟩
      simp [review_code, hne, hv]
    · simp [review_code, hne, hv]
  | jnull =>
    constructor
    · refine ⟨"AttributeError: object has no attribute strip", ?_⟩
      simp [review_code, hne, hv]
    · simp [review_code, hne, hv]

theorem claim10_witness :
    (∃ m, (review_code [] (some [("code", Jval.jnum 7)]) "t").1 = Response.err 500 m) ∧
    (review_code [] (some [("code", Jval.jnum 7)]) "t").2 = [] :=
  claim10 [] [("code", Jval.jnum 7)] "t" (Jval.jnum 7) (by decide)
    (fun s h => Jval.noConfusion h)

end CodeReview
